import Mathlib

/-!
Shallow embedding of the jiralerts issue-reconciliation logic
(src/jiralerts/issues.py) together with proofs about the claims of the
specification.  The JIRA client, the SHA-1 hash of hashlib and the jinja2
template rendering are external collaborators: they are modelled as
parameters (fields of `Config` and `JiraEnv`), and every remote call the
code performs is recorded in an explicit `JiraCall` trace.
-/

namespace Jiralerts

/-- A workflow transition as returned by the remote tracker
(`jira.transitions`): a display name and an id. -/
structure Transition where
  name : String
  id : String
deriving DecidableEq, Repr

/-- A remote ticket as seen by the code: key, permalink, summary,
description and labels (the fields read or written by issues.py). -/
structure Issue where
  key : String
  permalink : String
  summary : String
  description : String
  labels : List String
deriving DecidableEq, Repr

/-- The Alertmanager webhook payload fields read by the code:
`version`, `status`, `groupKey` and `commonLabels` (a Python dict,
embedded as an insertion-ordered association list). -/
structure Payload where
  version : String
  status : String
  groupKey : String
  commonLabels : List (String × String)
deriving DecidableEq, Repr

/-- One remote call against the ticket system, as issued by issues.py:
`search` (jira.search_issues), `getTransitions` (jira.transitions),
`doTransition` (jira.transition_issue), `update` (issue.update) and
`create` (jira.create_issue). -/
inductive JiraCall where
  | search (query : String)
  | getTransitions (issueKey : String)
  | doTransition (issueKey transitionId : String)
  | update (issueKey summary description : String) (labels : List String)
  | create (project issuetype summary description : String) (labels : List String)
deriving DecidableEq, Repr

/-- Recognizer for transition-execute calls. -/
def JiraCall.isDoTransition : JiraCall → Bool
  | .doTransition _ _ => true
  | _ => false

/-- Recognizer for create calls. -/
def JiraCall.isCreate : JiraCall → Bool
  | .create _ _ _ _ _ => true
  | _ => false

/-- Manager configuration: the `resolve_transitions` and `resolved_status`
lists of the constructor, plus the external collaborators abstracted as
functions: `sha1hex` stands for hashlib.sha1 hexdigest, and
`renderSummary` and `renderDescription` stand for the jinja2 templates
(the template files are external formatting, opaque to the claims). -/
structure Config where
  resolve_transitions : List String
  resolved_status : List String
  sha1hex : String → String
  renderSummary : Payload → String
  renderDescription : Payload → String

/-- The remote JIRA service as seen through the calls the code makes:
what a search returns, which transitions a ticket offers, and the issue
object returned by a create call. -/
structure JiraEnv where
  searchIssues : String → List Issue
  transitionsOf : Issue → List Transition
  createdIssue : Issue

/-! ### Pure helpers of issues.py -/

/-- prepare_group_label_key: first 10 hex characters of the SHA-1 of the
group key (the hash itself is the external hashlib primitive). -/
def prepare_group_label_key (sha1hex : String → String) (gk : String) : String :=
  String.mk ((sha1hex gk).data.take 10)

/-- Python str.strip: remove whitespace from both ends. -/
def stripChars (l : List Char) : List Char :=
  ((l.dropWhile Char.isWhitespace).reverse.dropWhile Char.isWhitespace).reverse

/-- Python str.strip lifted to strings. -/
def pyStrip (s : String) : String :=
  String.mk (stripChars s.data)

/-- Python str.split with a one-character separator: split at every
occurrence, keeping empty segments. -/
def splitOnCharAux (c : Char) : List Char → List Char → List (List Char)
  | [], cur => [cur.reverse]
  | x :: xs, cur =>
    if x == c then cur.reverse :: splitOnCharAux c xs []
    else splitOnCharAux c xs (x :: cur)

/-- Python `v.split(",")`. -/
def pySplitComma (v : String) : List String :=
  (splitOnCharAux ',' v.data []).map String.mk

/-- The tags whitelist of prepare_tags. -/
def tags_whitelist : List String :=
  ["severity", "dc", "env", "perimeter", "team", "jiralert"]

/-- The contribution of a `tags` label value: split on commas, keep the
non-empty segments (tested before stripping, as in the source), strip
each. -/
def splitTags (v : String) : List String :=
  ((pySplitComma v).filter (fun t => t ≠ "")).map pyStrip

/-- One iteration of the prepare_tags loop over a commonLabels item. -/
def prepare_tags_step (tags : List String) (kv : String × String) : List String :=
  let tags := if tags_whitelist.contains kv.1 then tags ++ [kv.1 ++ ":" ++ kv.2] else tags
  if kv.1 == "tags" then tags ++ splitTags kv.2 else tags

/-- prepare_tags: start from ["alert"], then for each commonLabels item
append "key:value" for whitelisted keys and the comma-split segments of a
`tags` label. -/
def prepare_tags (common_labels : List (String × String)) : List String :=
  common_labels.foldl prepare_tags_step ["alert"]

/-- DESCRIPTION_BOUNDARY constant of the Manager class. -/
def DESCRIPTION_BOUNDARY : String := "_-- Alertmanager -- [only edit above]_"

/-- SEARCH_QUERY with its format fields substituted, exactly as
SEARCH_QUERY.format produces it. -/
def SEARCH_QUERY (project issuetype status group_label_key : String) : String :=
  "project = \"" ++ project ++ "\" and issuetype = \"" ++ issuetype ++
    "\" and labels = \"alert\" and status not in (" ++ status ++
    ") and labels = \"jiralert:" ++ group_label_key ++ "\""

/-! ### Python rsplit(sep, 1)[0] -/

/-- Boolean test that `pat` starts the list `s`. -/
def isPrefixB : List Char → List Char → Bool
  | [], _ => true
  | _ :: _, [] => false
  | a :: as, b :: bs => a == b && isPrefixB as bs

/-- Index of the last occurrence of `sep` in `s` (an occurrence at `i`
means `sep` starts the suffix dropping `i` characters), or `none` when
`sep` does not occur.  This is the split point Python rsplit(sep, 1)
uses (str.rfind). -/
def lastOccIdx (s sep : List Char) : Option Nat :=
  (List.range (s.length + 1)).foldl
    (fun acc i => if isPrefixB sep (s.drop i) then some i else acc) none

/-- Python `s.rsplit(sep, 1)[0]`: everything before the last occurrence
of `sep`, or the whole string when `sep` does not occur. -/
def rsplitBeforeLast (s sep : String) : String :=
  match lastOccIdx s.data sep.data with
  | none => s
  | some i => String.mk (s.data.take i)

/-- Python str.lower, character by character. -/
def strToLower (s : String) : String := String.mk (s.data.map Char.toLower)

/-- Substring test used to state claims about text being present. -/
def occursIn (pat s : List Char) : Bool :=
  (List.range (s.length + 1)).any (fun i => isPrefixB pat (s.drop i))

/-! ### Manager remote operations -/

/-- The description written by update_issue: the part of the old
description above the last boundary marker, stripped, then a blank line,
the marker and the freshly rendered text. -/
def update_description (oldDescription newText : String) : String :=
  pyStrip (rsplitBeforeLast oldDescription DESCRIPTION_BOUNDARY) ++ "\n\n" ++
    DESCRIPTION_BOUNDARY ++ "\n" ++ newText

/-- The labels written by update_issue: `list(set(existing + tags))`.
Python set order is unspecified; we embed it as duplicate removal, and
only membership and duplicate-freeness are used in the proofs. -/
def update_labels (existing tags : List String) : List String :=
  (existing ++ tags).dedup

/-- update_issue: computes the new description and the merged labels and
issues one remote update call; the returned issue is the post-update
server state. -/
def update_issue (issue : Issue) (summary description : String) (tags : List String) :
    Issue × JiraCall :=
  let newDescription := update_description issue.description description
  let labels := update_labels issue.labels tags
  ({ issue with summary := summary, description := newDescription, labels := labels },
    JiraCall.update issue.key summary newDescription labels)

/-- create_issue: one remote create call; the description field prepends
the boundary marker to the rendered text. -/
def create_issue (env : JiraEnv) (project issue_type summary description : String)
    (tags : List String) : Issue × JiraCall :=
  (env.createdIssue,
    JiraCall.create project issue_type summary
      (DESCRIPTION_BOUNDARY ++ "\n\n" ++ description) tags)

/-- update_or_resolve_issue, line for line: the body rebinds `resolved`
to False before the transition block (line 221 of issues.py), then
updates the issue regardless.  Returns the final `resolved` flag, the
post-update issue and the remote calls made. -/
def update_or_resolve_issue (cfg : Config) (env : JiraEnv) (issue : Issue)
    (resolved : Bool) (summary description : String) (tags : List String) :
    Bool × Issue × List JiraCall :=
  let resolved := false
  let (resolved, transCalls) :=
    if resolved then
      let valid_trans := (env.transitionsOf issue).filter
        (fun t => cfg.resolve_transitions.contains (strToLower t.name))
      match valid_trans with
      | [] => (resolved, [JiraCall.getTransitions issue.key])
      | t :: _ => (true, [JiraCall.getTransitions issue.key,
          JiraCall.doTransition issue.key t.id])
    else (resolved, [])
  let (issue2, upCall) := update_issue issue summary description tags
  (resolved, issue2, transCalls ++ [upCall])

/-- The reconciliation outcome dict of do_file_issue_sync. -/
structure Outcome where
  created : List String
  found : List String
  updated : List String
  resolved : List String
deriving DecidableEq, Repr

/-- Result of one synchronous reconciliation: the outcome dict, the
post-update states of the issues acted on, and the remote-call trace. -/
structure SyncResult where
  outcome : Outcome
  updatedIssues : List Issue
  trace : List JiraCall
deriving DecidableEq, Repr

/-- The tags list computed at the top of do_file_issue_sync:
prepare_tags of the commonLabels with the jiralert fingerprint tag
appended. -/
def syncTags (cfg : Config) (data : Payload) : List String :=
  prepare_tags data.commonLabels ++
    ["jiralert:" ++ prepare_group_label_key cfg.sha1hex data.groupKey]

/-- The search query built by do_file_issue_sync. -/
def issueQuery (cfg : Config) (project issue_type : String) (data : Payload) : String :=
  SEARCH_QUERY project issue_type (String.intercalate "," cfg.resolved_status)
    (prepare_group_label_key cfg.sha1hex data.groupKey)

/-- do_file_issue_sync.  The source sorts a copy of the search result
and discards it (`sorted(result, key=...)` on line 303), so iteration
stays in search order; the `resolved` flag is threaded through the loop
and the create branch runs only when the search found nothing and the
payload is not resolved. -/
def do_file_issue_sync (cfg : Config) (env : JiraEnv) (project issue_type : String)
    (data : Payload) : SyncResult :=
  let resolved := data.status == "resolved"
  let tags := syncTags cfg data
  let description := cfg.renderDescription data
  let summary := cfg.renderSummary data
  let query := issueQuery cfg project issue_type data
  let result := env.searchIssues query
  let found := result.map Issue.permalink
  let step := fun (acc : Bool × List String × List String × List Issue × List JiraCall)
      (issue : Issue) =>
    let (res, updatedL, resolvedL, upd, trace) := acc
    let (r, issue2, calls) := update_or_resolve_issue cfg env issue res summary description tags
    if r then (r, updatedL, resolvedL ++ [issue.permalink], upd ++ [issue2], trace ++ calls)
    else (r, updatedL ++ [issue.permalink], resolvedL, upd ++ [issue2], trace ++ calls)
  let folded := result.foldl step (resolved, [], [], [], [])
  let (resolvedFinal, updatedL, resolvedL, updIssues, loopTrace) := folded
  if result.isEmpty then
    if !resolvedFinal then
      let (issue, call) := create_issue env project issue_type summary description tags
      { outcome := ⟨[issue.permalink], found, updatedL, resolvedL⟩
        updatedIssues := updIssues
        trace := JiraCall.search query :: (loopTrace ++ [call]) }
    else
      { outcome := ⟨[], found, updatedL, resolvedL⟩
        updatedIssues := updIssues
        trace := JiraCall.search query :: loopTrace }
  else
    { outcome := ⟨[], found, updatedL, resolvedL⟩
      updatedIssues := updIssues
      trace := JiraCall.search query :: loopTrace }

/-- An HTTP-level response of the Manager endpoints: status string,
code, optional outcome dict. -/
structure HttpResponse where
  status : String
  code : Nat
  issues : Option Outcome
deriving DecidableEq, Repr

/-- do_file_issue in its synchronous configuration (threadpool None):
readiness gate, version gate, then the synchronous reconciliation.  The
trace is the list of remote calls performed while answering. -/
def do_file_issue (cfg : Config) (env : JiraEnv) (ready : Bool)
    (project issue_type : String) (payload : Payload) : HttpResponse × List JiraCall :=
  if !ready then ({ status := "Not ready yet", code := 503, issues := none }, [])
  else if !(payload.version == "3" || payload.version == "4") then
    (⟨"unknown message version " ++ payload.version, 400, none⟩, [])
  else
    let r := do_file_issue_sync cfg env project issue_type payload
    ({ status := "OK", code := 200, issues := some r.outcome }, r.trace)

/-- post_issues_with_project: the qualified endpoint checks the version
field before forwarding to do_file_issue. -/
def post_issues_with_project (cfg : Config) (env : JiraEnv) (ready : Bool)
    (project issue_type : String) (payload : Payload) : HttpResponse × List JiraCall :=
  if !(payload.version == "3" || payload.version == "4") then
    (⟨"unknown message version " ++ payload.version, 400, none⟩, [])
  else do_file_issue cfg env ready project issue_type payload

/-! ### Concrete fixtures used for evaluations and witnesses -/

/-- A concrete configuration: one resolving transition, two terminal
statuses, and constant stand-ins for the external hash and templates. -/
def demoCfg : Config :=
  { resolve_transitions := ["close issue"]
    resolved_status := ["resolved", "closed"]
    sha1hex := fun _ => "abcdef0000ffff"
    renderSummary := fun _ => "S"
    renderDescription := fun _ => "D" }

/-- A stored ticket carrying the fingerprint tag for group key G1 under
demoCfg. -/
def demoTicket1 : Issue :=
  { key := "FOO-1"
    permalink := "http://jira/browse/FOO-1"
    summary := "old"
    description := "d"
    labels := ["alert", "jiralert:abcdef0000"] }

/-- A second stored ticket with a later key. -/
def demoTicket2 : Issue :=
  { key := "FOO-2"
    permalink := "http://jira/browse/FOO-2"
    summary := "old"
    description := "d"
    labels := ["alert", "jiralert:abcdef0000"] }

/-- The ticket returned by a remote create call. -/
def demoCreated : Issue :=
  { key := "FOO-9"
    permalink := "http://jira/browse/FOO-9"
    summary := "S"
    description := "D"
    labels := [] }

/-- A store whose fingerprint search finds demoTicket1, which offers a
transition whose lowercased name is in demoCfg.resolve_transitions. -/
def demoEnvFound : JiraEnv :=
  { searchIssues := fun _ => [demoTicket1]
    transitionsOf := fun _ => [⟨"Close Issue", "2"⟩]
    createdIssue := demoCreated }

/-- A store whose search returns two tickets in descending key order. -/
def demoEnvTwo : JiraEnv :=
  { searchIssues := fun _ => [demoTicket2, demoTicket1]
    transitionsOf := fun _ => []
    createdIssue := demoCreated }

/-- An empty store. -/
def demoEnvEmpty : JiraEnv :=
  { searchIssues := fun _ => []
    transitionsOf := fun _ => []
    createdIssue := demoCreated }

/-- A resolved payload for group key G1. -/
def demoResolvedPayload : Payload :=
  { version := "4"
    status := "resolved"
    groupKey := "G1"
    commonLabels := [("project", "FOO"), ("issue_type", "Alert")] }

/-- The same payload while still firing. -/
def demoFiringPayload : Payload := { demoResolvedPayload with status := "firing" }

/-- The same payload with an unsupported version. -/
def demoV2Payload : Payload := { demoFiringPayload with version := "2" }

/-- The store seen by the second reconciliation of the idempotence
witness: the fingerprint search returns exactly the tickets the first
reconciliation updated. -/
def demoEnvSecond : JiraEnv :=
  { searchIssues := fun _ =>
      (do_file_issue_sync demoCfg demoEnvFound "FOO" "Alert" demoFiringPayload).updatedIssues
    transitionsOf := fun _ => []
    createdIssue := demoCreated }

/-! ### Helper lemmas -/

/-- String append acts as list append on the underlying characters. -/
theorem string_data_append (s t : String) : (s ++ t).data = s.data ++ t.data := rfl

/-- A list is a prefix of itself followed by anything. -/
theorem isPrefixB_self_append (l t : List Char) : isPrefixB l (l ++ t) = true := by
  induction l with
  | nil => rfl
  | cons a as ih => simp [isPrefixB, ih]

/-- If an occurrence of `sep` starts at position `p` of `s`, the last
occurrence found by `lastOccIdx` is at position `p` or later. -/
theorem lastOccIdx_ge (s sep : List Char) (p : Nat)
    (hp : isPrefixB sep (s.drop p) = true) (hps : p ≤ s.length) :
    ∃ m, lastOccIdx s sep = some m ∧ p ≤ m := by
  have key : ∀ (n : Nat) (acc : Option Nat) (q : Nat), q < n →
      isPrefixB sep (s.drop q) = true →
      ∃ m, (List.range n).foldl
          (fun acc i => if isPrefixB sep (s.drop i) then some i else acc) acc = some m ∧
        q ≤ m := by
    intro n
    induction n with
    | zero => exact fun acc q h _ => absurd h (Nat.not_lt_zero q)
    | succ n ih =>
      intro acc q hqn hQ
      rw [List.range_succ, List.foldl_append, List.foldl_cons, List.foldl_nil]
      by_cases hn : isPrefixB sep (s.drop n) = true
      · exact ⟨n, by simp [hn], by omega⟩
      · have hqn2 : q < n := by
          rcases Nat.lt_succ_iff_lt_or_eq.mp hqn with h | h
          · exact h
          · exact absurd (h ▸ hQ) hn
        obtain ⟨m, hm, hqm⟩ := ih acc q hqn2 hQ
        exact ⟨m, by simp [hn, hm], hqm⟩
  exact key (s.length + 1) none p (Nat.lt_succ_of_le hps) hp

/-- Reconciliation when the fingerprint search finds nothing: the loop
body never runs, and the create branch fires exactly when the payload is
not resolved. -/
theorem sync_no_match (cfg : Config) (env : JiraEnv) (project issue_type : String)
    (data : Payload)
    (h : env.searchIssues (issueQuery cfg project issue_type data) = []) :
    do_file_issue_sync cfg env project issue_type data =
      if data.status == "resolved" then
        { outcome := ⟨[], [], [], []⟩
          updatedIssues := []
          trace := [JiraCall.search (issueQuery cfg project issue_type data)] }
      else
        { outcome := ⟨[env.createdIssue.permalink], [], [], []⟩
          updatedIssues := []
          trace := [JiraCall.search (issueQuery cfg project issue_type data),
            JiraCall.create project issue_type (cfg.renderSummary data)
              (DESCRIPTION_BOUNDARY ++ "\n\n" ++ cfg.renderDescription data)
              (syncTags cfg data)] } := by
  simp only [do_file_issue_sync, h]
  by_cases hs : data.status == "resolved"
  · simp [hs, create_issue]
  · simp [hs, create_issue]

/-- Reconciliation when the fingerprint search finds exactly one ticket:
whatever the payload status, the ticket is updated (never transitioned,
because update_or_resolve_issue rebinds resolved to False on entry) and
listed under `updated`. -/
theorem sync_single (cfg : Config) (env : JiraEnv) (project issue_type : String)
    (data : Payload) (t : Issue)
    (h : env.searchIssues (issueQuery cfg project issue_type data) = [t]) :
    do_file_issue_sync cfg env project issue_type data =
      { outcome := ⟨[], [t.permalink], [t.permalink], []⟩
        updatedIssues := [(update_issue t (cfg.renderSummary data)
          (cfg.renderDescription data) (syncTags cfg data)).1]
        trace := [JiraCall.search (issueQuery cfg project issue_type data),
          (update_issue t (cfg.renderSummary data)
            (cfg.renderDescription data) (syncTags cfg data)).2] } := by
  simp only [do_file_issue_sync, h]
  simp [update_or_resolve_issue]

/-- A commonLabels item that is neither whitelisted nor a tags label
leaves the accumulator unchanged. -/
theorem prepare_tags_step_irrelevant (tags : List String) (kv : String × String)
    (hw : tags_whitelist.contains kv.1 = false) (ht : (kv.1 == "tags") = false) :
    prepare_tags_step tags kv = tags := by
  have hw2 : kv.1 ∉ tags_whitelist := by simpa using hw
  simp [prepare_tags_step, hw2, ht]

/-- The prepare_tags fold only depends on the whitelisted and tags
items. -/
theorem prepare_tags_filter (cl : List (String × String)) (acc : List String) :
    cl.foldl prepare_tags_step acc
      = (cl.filter (fun kv => tags_whitelist.contains kv.1 || kv.1 == "tags")).foldl
          prepare_tags_step acc := by
  induction cl generalizing acc with
  | nil => rfl
  | cons x t ih =>
    rw [List.foldl_cons, List.filter_cons]
    by_cases hx : (tags_whitelist.contains x.1 || x.1 == "tags") = true
    · rw [if_pos hx, List.foldl_cons, ih]
    · have hw : tags_whitelist.contains x.1 = false := by
        revert hx
        cases tags_whitelist.contains x.1 <;> simp
      have ht : (x.1 == "tags") = false := by
        revert hx
        cases (x.1 == "tags") <;> simp
      rw [if_neg hx, prepare_tags_step_irrelevant _ _ hw ht, ih]

/-! ### Claims -/

/-- C1: evaluation of the code at the failing input of the claim.  A
resolved payload whose search finds the open ticket demoTicket1, with an
available transition whose lowercased name is in the configured
allow-list, is listed under `updated`, not `resolved`, and no remote
transition-execute call is made: update_or_resolve_issue rebinds
resolved to False on entry, so the transition block never runs. -/
theorem c1_resolved_ticket_never_transitioned :
    (demoEnvFound.transitionsOf demoTicket1).filter
      (fun t => demoCfg.resolve_transitions.contains (strToLower t.name))
      = [⟨"Close Issue", "2"⟩] ∧
    (do_file_issue_sync demoCfg demoEnvFound "FOO" "Alert" demoResolvedPayload).outcome.resolved
      = [] ∧
    (do_file_issue_sync demoCfg demoEnvFound "FOO" "Alert" demoResolvedPayload).outcome.updated
      = ["http://jira/browse/FOO-1"] ∧
    (do_file_issue_sync demoCfg demoEnvFound "FOO" "Alert"
        demoResolvedPayload).trace.filter JiraCall.isDoTransition = [] := by
  refine ⟨by decide, ?_, ?_, ?_⟩
  · rw [sync_single demoCfg demoEnvFound "FOO" "Alert" demoResolvedPayload demoTicket1 rfl]
  · rw [sync_single demoCfg demoEnvFound "FOO" "Alert" demoResolvedPayload demoTicket1 rfl]
    rfl
  · rw [sync_single demoCfg demoEnvFound "FOO" "Alert" demoResolvedPayload demoTicket1 rfl]
    rfl

/-- C2: idempotence.  A firing payload reconciled against a store whose
fingerprint search returns the matching ticket t0 is recorded under
`updated` (never `created`); a second reconciliation against the store
holding the updated ticket does the same, and the jiralert fingerprint
tag is on the ticket after each of the two calls. -/
theorem c2_reconcile_idempotent (cfg : Config) (env1 env2 : JiraEnv)
    (project issue_type : String) (data : Payload) (t0 : Issue)
    (hst : data.status = "firing")
    (h1 : env1.searchIssues (issueQuery cfg project issue_type data) = [t0])
    (hjt : ("jiralert:" ++ prepare_group_label_key cfg.sha1hex data.groupKey) ∈ t0.labels)
    (h2 : env2.searchIssues (issueQuery cfg project issue_type data)
        = (do_file_issue_sync cfg env1 project issue_type data).updatedIssues) :
    ∃ t1 t2,
      (do_file_issue_sync cfg env1 project issue_type data).updatedIssues = [t1] ∧
      (do_file_issue_sync cfg env2 project issue_type data).updatedIssues = [t2] ∧
      (do_file_issue_sync cfg env1 project issue_type data).outcome.updated = [t0.permalink] ∧
      (do_file_issue_sync cfg env1 project issue_type data).outcome.created = [] ∧
      (do_file_issue_sync cfg env2 project issue_type data).outcome.updated = [t0.permalink] ∧
      (do_file_issue_sync cfg env2 project issue_type data).outcome.created = [] ∧
      ("jiralert:" ++ prepare_group_label_key cfg.sha1hex data.groupKey) ∈ t1.labels ∧
      ("jiralert:" ++ prepare_group_label_key cfg.sha1hex data.groupKey) ∈ t2.labels := by
  have e1 := sync_single cfg env1 project issue_type data t0 h1
  have h2b : env2.searchIssues (issueQuery cfg project issue_type data)
      = [(update_issue t0 (cfg.renderSummary data) (cfg.renderDescription data)
          (syncTags cfg data)).1] := by
    rw [h2, e1]
  have e2 := sync_single cfg env2 project issue_type data _ h2b
  have hmem : ∀ t : Issue,
      ("jiralert:" ++ prepare_group_label_key cfg.sha1hex data.groupKey) ∈
        (update_issue t (cfg.renderSummary data) (cfg.renderDescription data)
          (syncTags cfg data)).1.labels := by
    intro t
    simp [update_issue, update_labels, List.mem_dedup, syncTags]
  refine ⟨(update_issue t0 (cfg.renderSummary data) (cfg.renderDescription data)
      (syncTags cfg data)).1,
    (update_issue (update_issue t0 (cfg.renderSummary data) (cfg.renderDescription data)
        (syncTags cfg data)).1 (cfg.renderSummary data) (cfg.renderDescription data)
      (syncTags cfg data)).1, ?_, ?_, ?_, ?_, ?_, ?_, hmem t0, hmem _⟩
  · rw [e1]
  · rw [e2]
  · rw [e1]
  · rw [e1]
  · rw [e2]
    rfl
  · rw [e2]

/-- C2 witness: the idempotence theorem applied to the concrete
fixtures. -/
theorem c2_reconcile_idempotent_witness :
    ∃ t1 t2,
      (do_file_issue_sync demoCfg demoEnvFound "FOO" "Alert" demoFiringPayload).updatedIssues
        = [t1] ∧
      (do_file_issue_sync demoCfg demoEnvSecond "FOO" "Alert" demoFiringPayload).updatedIssues
        = [t2] ∧
      (do_file_issue_sync demoCfg demoEnvFound "FOO" "Alert"
        demoFiringPayload).outcome.updated = [demoTicket1.permalink] ∧
      (do_file_issue_sync demoCfg demoEnvFound "FOO" "Alert"
        demoFiringPayload).outcome.created = [] ∧
      (do_file_issue_sync demoCfg demoEnvSecond "FOO" "Alert"
        demoFiringPayload).outcome.updated = [demoTicket1.permalink] ∧
      (do_file_issue_sync demoCfg demoEnvSecond "FOO" "Alert"
        demoFiringPayload).outcome.created = [] ∧
      ("jiralert:" ++ prepare_group_label_key demoCfg.sha1hex demoFiringPayload.groupKey)
        ∈ t1.labels ∧
      ("jiralert:" ++ prepare_group_label_key demoCfg.sha1hex demoFiringPayload.groupKey)
        ∈ t2.labels :=
  c2_reconcile_idempotent demoCfg demoEnvFound demoEnvSecond "FOO" "Alert"
    demoFiringPayload demoTicket1 rfl rfl (by decide) rfl

/-- C3: a resolved payload whose search finds no ticket yields an
outcome with created, found, updated and resolved all empty, and the
only remote call is the search itself (in particular no create). -/
theorem c3_resolved_no_match_noop (cfg : Config) (env : JiraEnv)
    (project issue_type : String) (data : Payload)
    (hst : data.status = "resolved")
    (h : env.searchIssues (issueQuery cfg project issue_type data) = []) :
    (do_file_issue_sync cfg env project issue_type data).outcome = ⟨[], [], [], []⟩ ∧
    (do_file_issue_sync cfg env project issue_type data).trace
      = [JiraCall.search (issueQuery cfg project issue_type data)] := by
  have e := sync_no_match cfg env project issue_type data h
  rw [hst] at e
  have hb : (("resolved" : String) == "resolved") = true := by decide
  rw [hb, if_pos rfl] at e
  rw [e]
  exact ⟨rfl, rfl⟩

/-- C3 witness: the theorem applied to the empty store and the concrete
resolved payload. -/
theorem c3_resolved_no_match_noop_witness :
    (do_file_issue_sync demoCfg demoEnvEmpty "FOO" "Alert" demoResolvedPayload).outcome
      = ⟨[], [], [], []⟩ ∧
    (do_file_issue_sync demoCfg demoEnvEmpty "FOO" "Alert" demoResolvedPayload).trace
      = [JiraCall.search (issueQuery demoCfg "FOO" "Alert" demoResolvedPayload)] :=
  c3_resolved_no_match_noop demoCfg demoEnvEmpty "FOO" "Alert" demoResolvedPayload rfl rfl

/-- C4: a firing payload whose search finds no ticket makes exactly one
remote create call, carrying the rendered summary, the boundary marker
followed by the rendered description, and the computed tags; the outcome
lists the created permalink and nothing else. -/
theorem c4_firing_no_match_creates (cfg : Config) (env : JiraEnv)
    (project issue_type : String) (data : Payload)
    (hst : data.status = "firing")
    (h : env.searchIssues (issueQuery cfg project issue_type data) = []) :
    (do_file_issue_sync cfg env project issue_type data).outcome
      = ⟨[env.createdIssue.permalink], [], [], []⟩ ∧
    (do_file_issue_sync cfg env project issue_type data).trace
      = [JiraCall.search (issueQuery cfg project issue_type data),
        JiraCall.create project issue_type (cfg.renderSummary data)
          (DESCRIPTION_BOUNDARY ++ "\n\n" ++ cfg.renderDescription data)
          (syncTags cfg data)] := by
  have e := sync_no_match cfg env project issue_type data h
  rw [hst] at e
  have hb : (("firing" : String) == "resolved") = false := by decide
  rw [hb] at e
  simp only [Bool.false_eq_true, if_false] at e
  rw [e]
  exact ⟨rfl, rfl⟩

/-- C4 witness: the theorem applied to the empty store and the concrete
firing payload. -/
theorem c4_firing_no_match_creates_witness :
    (do_file_issue_sync demoCfg demoEnvEmpty "FOO" "Alert" demoFiringPayload).outcome
      = ⟨[demoEnvEmpty.createdIssue.permalink], [], [], []⟩ ∧
    (do_file_issue_sync demoCfg demoEnvEmpty "FOO" "Alert" demoFiringPayload).trace
      = [JiraCall.search (issueQuery demoCfg "FOO" "Alert" demoFiringPayload),
        JiraCall.create "FOO" "Alert" (demoCfg.renderSummary demoFiringPayload)
          (DESCRIPTION_BOUNDARY ++ "\n\n" ++ demoCfg.renderDescription demoFiringPayload)
          (syncTags demoCfg demoFiringPayload)] :=
  c4_firing_no_match_creates demoCfg demoEnvEmpty "FOO" "Alert" demoFiringPayload rfl rfl

/-- C5: evaluation of the code at the failing input of the claim.  The
search returns FOO-2 before FOO-1; because the result of
`sorted(result, key=...)` is discarded, the tickets are processed in
search order (FOO-2 first), not in ascending key order. -/
theorem c5_tickets_processed_in_search_order :
    (do_file_issue_sync demoCfg demoEnvTwo "FOO" "Alert" demoFiringPayload).outcome.found
      = ["http://jira/browse/FOO-2", "http://jira/browse/FOO-1"] ∧
    (do_file_issue_sync demoCfg demoEnvTwo "FOO" "Alert"
        demoFiringPayload).updatedIssues.map Issue.key = ["FOO-2", "FOO-1"] ∧
    (["FOO-2", "FOO-1"] : List String) ≠ ["FOO-1", "FOO-2"] := by
  refine ⟨?_, ?_, by decide⟩ <;> decide

/-- C6 counterexample: with the old description `"hi \n" ++ marker ++
"bot"`, the text above the marker is exactly `"hi \n"`, yet after the
update that text occurs nowhere in the new description (update_issue
strips surrounding whitespace from the human part), so it is not
preserved verbatim above the marker. -/
theorem c6_whitespace_not_preserved :
    rsplitBeforeLast ("hi \n" ++ DESCRIPTION_BOUNDARY ++ "bot") DESCRIPTION_BOUNDARY
      = "hi \n" ∧
    occursIn "hi \n".data
      (update_description ("hi \n" ++ DESCRIPTION_BOUNDARY ++ "bot") "new").data = false := by
  decide

/-- C6 amended: the update preserves the text above the last boundary
marker up to leading and trailing whitespace.  The whitespace-stripped
text above the marker of the old description is a prefix of the text
above the last marker of the new description, and the new description is
exactly that stripped text, a blank line, the marker, a newline and the
newly rendered text. -/
theorem c6_update_preserves_stripped_custom_text (oldDescription newText : String) :
    (pyStrip (rsplitBeforeLast oldDescription DESCRIPTION_BOUNDARY)).data <+:
      (rsplitBeforeLast (update_description oldDescription newText)
        DESCRIPTION_BOUNDARY).data ∧
    update_description oldDescription newText
      = pyStrip (rsplitBeforeLast oldDescription DESCRIPTION_BOUNDARY) ++ "\n\n" ++
        DESCRIPTION_BOUNDARY ++ "\n" ++ newText := by
  refine ⟨?_, rfl⟩
  have hdata : (update_description oldDescription newText).data
      = ((pyStrip (rsplitBeforeLast oldDescription DESCRIPTION_BOUNDARY)).data ++
          "\n\n".data) ++
        (DESCRIPTION_BOUNDARY.data ++ ("\n".data ++ newText.data)) := by
    unfold update_description
    simp [string_data_append]
  have hocc : isPrefixB DESCRIPTION_BOUNDARY.data
      ((update_description oldDescription newText).data.drop
        ((pyStrip (rsplitBeforeLast oldDescription DESCRIPTION_BOUNDARY)).data ++
          "\n\n".data).length) = true := by
    rw [hdata, List.drop_left]
    exact isPrefixB_self_append _ _
  have hple : ((pyStrip (rsplitBeforeLast oldDescription DESCRIPTION_BOUNDARY)).data ++
      "\n\n".data).length ≤ (update_description oldDescription newText).data.length := by
    rw [hdata]
    simp [List.length_append]
  obtain ⟨m, hm, hpm⟩ := lastOccIdx_ge _ _ _ hocc hple
  unfold rsplitBeforeLast
  rw [hm]
  show (pyStrip (rsplitBeforeLast oldDescription DESCRIPTION_BOUNDARY)).data <+:
    (update_description oldDescription newText).data.take m
  rw [List.prefix_take_iff]
  constructor
  · rw [hdata]
    have h1 : (pyStrip (rsplitBeforeLast oldDescription DESCRIPTION_BOUNDARY)).data <+:
        (pyStrip (rsplitBeforeLast oldDescription DESCRIPTION_BOUNDARY)).data ++
          "\n\n".data :=
      List.prefix_append _ _
    exact h1.trans (List.prefix_append _ _)
  · calc (pyStrip (rsplitBeforeLast oldDescription DESCRIPTION_BOUNDARY)).data.length
        ≤ ((pyStrip (rsplitBeforeLast oldDescription DESCRIPTION_BOUNDARY)).data ++
            "\n\n".data).length := by
          rw [List.length_append]
          exact Nat.le_add_right _ _
      _ ≤ m := hpm

/-- C7: the labels written by the update are the set union of the
existing labels and the computed tags: a label is on the updated ticket
exactly when it was already on the ticket or is one of the tags, so no
existing label (in particular no jiralert fingerprint tag) is removed or
altered by the update path. -/
theorem c7_update_merges_labels (issue : Issue) (summary description : String)
    (tags : List String) (l : String) :
    l ∈ (update_issue issue summary description tags).1.labels ↔
      (l ∈ issue.labels ∨ l ∈ tags) := by
  simp [update_issue, update_labels, List.mem_dedup]

/-- C8: a payload whose version is neither 3 nor 4 is rejected by the
qualified endpoint with a 400 validation response and an empty
remote-call trace (no search, create, update or transition). -/
theorem c8_unknown_version_rejected (cfg : Config) (env : JiraEnv) (ready : Bool)
    (project issue_type : String) (payload : Payload)
    (h3 : payload.version ≠ "3") (h4 : payload.version ≠ "4") :
    post_issues_with_project cfg env ready project issue_type payload
      = (⟨"unknown message version " ++ payload.version, 400, none⟩, []) := by
  unfold post_issues_with_project
  have hv : (payload.version == "3" || payload.version == "4") = false := by
    simp [h3, h4]
  rw [hv]
  simp

/-- C8 witness: the version-2 payload is rejected with 400 and no
remote call. -/
theorem c8_unknown_version_rejected_witness :
    post_issues_with_project demoCfg demoEnvFound true "FOO" "Alert" demoV2Payload
      = (⟨"unknown message version " ++ demoV2Payload.version, 400, none⟩, []) :=
  c8_unknown_version_rejected demoCfg demoEnvFound true "FOO" "Alert" demoV2Payload
    (by decide) (by decide)

/-- C9 counterexample: a commonLabels mapping that carries a whitelisted
label besides the tags value "a, b,, c" yields the extra tag
severity:high, so the result is not exactly the set alert, a, b, c. -/
theorem c9_other_labels_add_tags :
    "severity:high" ∈ prepare_tags [("severity", "high"), ("tags", "a, b,, c")] ∧
    "severity:high" ∉ (["alert", "a", "b", "c"] : List String) := by
  decide

/-- C9 amended: for every commonLabels mapping whose only whitelisted or
tags entry is a tags label with value "a, b,, c", prepare_tags yields
exactly alert, a, b, c: empty segments are dropped and whitespace is
trimmed. -/
theorem c9_tags_value_split (cl : List (String × String))
    (h : cl.filter (fun kv => tags_whitelist.contains kv.1 || kv.1 == "tags")
        = [("tags", "a, b,, c")]) :
    prepare_tags cl = ["alert", "a", "b", "c"] := by
  unfold prepare_tags
  rw [prepare_tags_filter, h]
  decide

/-- C9 witness: the amended theorem applied to a mapping with one
irrelevant label and the tags label. -/
theorem c9_tags_value_split_witness :
    prepare_tags [("alertname", "x"), ("tags", "a, b,, c")] = ["alert", "a", "b", "c"] :=
  c9_tags_value_split [("alertname", "x"), ("tags", "a, b,, c")] (by decide)

/-- C10 counterexample: prepare_tags can emit duplicates; a tags label
that repeats the base tag alert yields the list alert, alert. -/
theorem c10_prepare_tags_duplicates :
    ¬ (prepare_tags [("tags", "alert")]).Nodup := by
  decide

/-- C10 amended: the tag list prepare_tags builds may contain
duplicates; duplicates collapse where the labels are written by the
update path, whose merged label list never contains a duplicate. -/
theorem c10_update_labels_nodup (issue : Issue) (summary description : String)
    (tags : List String) :
    ((update_issue issue summary description tags).1.labels).Nodup := by
  simp [update_issue, update_labels, List.nodup_dedup]

end Jiralerts
